import Mathlib

/-!
# GLprimer (TNM046, Lab 3): transform matrices, mesh data and the GL call sequence of `main`

A shallow embedding of `Lab3/SOURCE/GLprimer/GLprimer.cpp`.

* `std::array<GLfloat, 16>` is `Mat4 α = Fin 16 → α`; element `[i*4+j]` is `m (idx i j)`.
* Entries live in an arbitrary field `α` (exact arithmetic); `cos` and `sin` are passed to the
  rotation constructors as functions `α → α`, and are `Real.cos`/`Real.sin` in the theorems.
* `main` is embedded as a function from the answers of the environment (GLFW, GLEW, OpenGL, the
  user) to the list of external calls it performs, together with its return value.
-/

namespace GLprimer

/-! ## Matrices -/

/-- The type `std::array<GLfloat, 16>`: sixteen entries, addressed by `0..15`. -/
abbrev Mat4 (α : Type) := Fin 16 → α

/-- The linear index `i * 4 + j` used throughout the source, for `i, j` in `0..3`. -/
def idx (i j : Fin 4) : Fin 16 := ⟨i.val * 4 + j.val, by omega⟩

section Constructors

variable {α : Type} [Field α]

/-- Source `rotX(float theta)`, lines 76-79. -/
def rotX (cos sin : α → α) (theta : α) : Mat4 α :=
  ![1, 0, 0, 0, 0, cos theta, sin theta, 0,
    0, -sin theta, cos theta, 0, 0, 0, 0, 1]

/-- Source `rotY(float theta)`, lines 81-84. -/
def rotY (cos sin : α → α) (theta : α) : Mat4 α :=
  ![cos theta, 0, -sin theta, 0, 0, 1, 0, 0,
    sin theta, 0, cos theta, 0, 0, 0, 0, 1]

/-- Source `rotZ(float theta)`, lines 86-89. -/
def rotZ (cos sin : α → α) (theta : α) : Mat4 α :=
  ![cos theta, sin theta, 0, 0, -sin theta, cos theta, 0, 0,
    0, 0, 1, 0, 0, 0, 0, 1]

/-- Source `translation(float x, float y, float z)`, lines 91-93. -/
def translation (x y z : α) : Mat4 α :=
  ![1, 0, 0, 0, 0, 1, 0, 0, 0, 0, 1, 0, x, y, z, 1]

/-- Source `scale(float x, float y, float z)`, lines 95-97. -/
def scale (x y z : α) : Mat4 α :=
  ![x, 0, 0, 0, 0, y, 0, 0, 0, 0, z, 0, 0, 0, 0, 1]

/-- The three nested loops of `matrisMultiplikation` (lines 102-109), run on a local array
`result` whose initial contents are whatever the uninitialised `std::array` holds. -/
def matrisMultiplikationLoops (result a b : Mat4 α) : Mat4 α :=
  (List.finRange 4).foldl (fun result i =>
    (List.finRange 4).foldl (fun result j =>
      (List.finRange 4).foldl (fun result k =>
          Function.update result (idx i j) (result (idx i j) + a (idx i k) * b (idx k j)))
        (Function.update result (idx i j) 0))
      result)
    result

/-- Source `matrisMultiplikation(a, b)`, lines 99-111. The declaration
`std::array<float, 16> result;` leaves `result` uninitialised; it is started here at all zeros,
and `matrisMultiplikationLoops_init` shows the start value is irrelevant. -/
def matrisMultiplikation (a b : Mat4 α) : Mat4 α :=
  matrisMultiplikationLoops (fun _ => 0) a b

/-- The literal `matT` of `main`, lines 244-245. -/
def matT : Mat4 α :=
  ![1, 0, 0, 0, 0, 1, 0, 0, 0, 0, 1, 0, 0, 0, 0, 1]

/-- A `Mat4` read as a 4x4 matrix: row `i`, column `j` is element `[i*4+j]`. -/
def toMatrix (m : Mat4 α) : Matrix (Fin 4) (Fin 4) α :=
  Matrix.of fun i j => m (idx i j)

/-- The upper-left 3x3 block of a `Mat4`. -/
def upperLeft (m : Mat4 α) : Matrix (Fin 3) (Fin 3) α :=
  Matrix.of fun i j => m (idx i.castSucc j.castSucc)

/-- The guarantee stated for the rotation constructors: the upper-left 3x3 block is orthogonal,
the determinant (of the whole matrix and of the block) is 1, and the last row and the last
column are both `[0, 0, 0, 1]`. -/
def IsHomogeneousRotation (m : Mat4 α) : Prop :=
  upperLeft m * (upperLeft m).transpose = 1 ∧
    (toMatrix m).det = 1 ∧ (upperLeft m).det = 1 ∧
    (∀ j : Fin 4, m (idx 3 j) = ![0, 0, 0, 1] j) ∧
    (∀ i : Fin 4, m (idx i 3) = ![0, 0, 0, 1] i)

end Constructors

/-! ## Mesh data of `main` -/

section Mesh

variable {α : Type} [Field α]

/-- The vector `vertexArrayData` of `main`, lines 126-158. -/
def vertexArrayData : List α :=
  [-1, -1, -1,
   -1, -1, -1,
   -1, -1, -1,

   -1, -1, 1,
   -1, -1, 1,
   -1, -1, 1,

   -1, 1, 1,
   -1, 1, 1,
   -1, 1, 1,

   -1, 1, -1,
   -1, 1, -1,
   -1, 1, -1,

   1, -1, -1,
   1, -1, -1,
   1, -1, -1,

   1, -1, 1,
   1, -1, 1,
   1, -1, 1,

   1, 1, 1,
   1, 1, 1,
   1, 1, 1,

   1, 1, -1,
   1, 1, -1,
   1, 1, -1]

/-- The vector `indexArrayData` of `main`, lines 174-176. -/
def indexArrayData : List Nat :=
  [0, 3, 9, 3, 6, 9, 4, 17, 7, 17, 20, 7,
   15, 21, 18, 15, 13, 21, 12, 10, 23, 12, 1, 10,
   8, 22, 11, 8, 19, 22, 2, 16, 5, 2, 14, 16]

/-- The vector `colorArrayData` of `main`, lines 210-242. -/
def colorArrayData : List α :=
  [-1, -1, -1,
   -1, -1, -1,
   -1, -1, -1,

   -1, -1, 1,
   -1, -1, 1,
   -1, -1, 1,

   -1, 1, 1,
   -1, 1, 1,
   -1, 1, 1,

   -1, 1, -1,
   -1, 1, -1,
   -1, 1, -1,

   1, -1, -1,
   1, -1, -1,
   1, -1, -1,

   1, -1, 1,
   1, -1, 1,
   1, -1, 1,

   1, 1, 1,
   1, 1, 1,
   1, 1, 1,

   1, 1, -1,
   1, 1, -1,
   1, 1, -1]

end Mesh

/-! ## External calls

`main` talks to GLFW, GLEW, OpenGL, the shader object, the `TriangleSoup` object and the console.
Each such call is one constructor of `GLCall`; values the callee hands back (generated names,
uniform locations, time readings, key states) are recorded in the call and come from `Env`.
What `Shader`, `TriangleSoup` and `util::displayFPS` do inside is not part of this file: their
calls appear as single events (`createShader`, `createSphere`, `soupRender`, `displayFPS`,
`soupOutOfScope`). -/

/-- The buffer binding targets used by the source. -/
inductive BufferTarget where
  | arrayBuffer
  | elementArrayBuffer
  deriving DecidableEq, Repr

/-- The uniform names looked up by the source: `"time"` and `"T"`. -/
inductive UniformName where
  | time
  | T
  deriving DecidableEq, Repr

/-- The window hints set by the source, lines 255-259. -/
inductive WindowHint where
  | contextVersionMajor
  | contextVersionMinor
  | openglProfileCore
  | openglForwardCompat
  deriving DecidableEq, Repr

/-- One external call made by the program. -/
inductive GLCall (α : Type) where
  | glfwInit
  | glfwGetVideoMode (width height : Int)
  | glfwWindowHint (hint : WindowHint)
  | glfwCreateWindow (width height : Int) (ok : Bool)
  | printUnableToOpenWindow
  | glfwTerminate
  | glfwMakeContextCurrent
  | glewInit (ok : Bool)
  | printGlewError
  | createShader
  | glGenVertexArrays (name : Nat)
  | glBindVertexArray (name : Nat)
  | glGenBuffers (name : Nat)
  | glBindBuffer (target : BufferTarget) (name : Nat)
  | glBufferDataFloat (target : BufferTarget) (data : List α)
  | glBufferDataUInt (target : BufferTarget) (data : List Nat)
  | glVertexAttribPointer (location dimensions : Int)
  | glEnableVertexAttribArray (location : Int)
  | printContextInfo
  | glfwSwapInterval (interval : Int)
  | glGetUniformLocation (name : UniformName) (location : Int)
  | printUniformNotFound
  | createSphere (radius : α) (segments : Int)
  | glfwWindowShouldClose (flag : Bool)
  | glClearColor (r g b a : α)
  | displayFPS
  | glfwGetWindowSize (width height : Int)
  | glViewport (x y width height : Int)
  | glClear
  | glUseProgram
  | glEnableCullFace
  | glPolygonModeFill
  | glCullFaceBack
  | glfwGetTime (seconds : α)
  | glUniform1f (location : Int) (value : α)
  | glUniformMatrix4fv (location : Int) (value : Mat4 α)
  | soupRender
  | glfwSwapBuffers
  | glfwPollEvents
  | glfwGetKeyEscape (pressed : Bool)
  | glfwSetWindowShouldClose
  | glDeleteVertexArrays (name : Nat)
  | glDeleteBuffers (name : Nat)
  | glfwDestroyWindow
  | soupOutOfScope

/-- A GPU object name created or deleted by `main`; vertex array objects and buffers have
separate name spaces in OpenGL. -/
inductive Handle where
  | vertexArray (name : Nat)
  | buffer (name : Nat)
  deriving DecidableEq, Repr

/-- What the environment answers during one pass of the render loop. -/
structure FrameEnv (α : Type) where
  /-- Window size reported by `glfwGetWindowSize`, line 329. -/
  width : Int
  height : Int
  /-- Reading of `glfwGetTime()` at line 346, uploaded as uniform `time`. -/
  time : α
  /-- Reading of `glfwGetTime()` at line 359, the angle of `matR1`. -/
  timeR1 : α
  /-- Reading of `glfwGetTime()` at line 360, the angle of `matR2`. -/
  timeR2 : α
  /-- Result of `glGetUniformLocation(myShader.id(), "T")`, line 372. -/
  locationT : Int
  /-- Whether the window system set the close flag while `glfwPollEvents` ran, line 388. -/
  closeRequested : Bool
  /-- Result of `glfwGetKey(window, GLFW_KEY_ESCAPE)`, line 391. -/
  escPressed : Bool

/-- What the environment answers during one run of `main`. -/
structure Env (α : Type) where
  /-- The video mode of the primary monitor, line 252. -/
  vidmodeWidth : Int
  vidmodeHeight : Int
  /-- Whether `glfwCreateWindow` returned a window, line 263. -/
  windowOk : Bool
  /-- Whether `glewInit` returned `GLEW_OK`, line 275. -/
  glewOk : Bool
  /-- The name written by `glGenVertexArrays`, line 286. -/
  vertexArrayName : Nat
  /-- The name written by the `n`-th call of `glGenBuffers` (counting from 0). -/
  bufferName : Nat → Nat
  /-- Result of `glGetUniformLocation(myShader.id(), "time")`, line 311. -/
  locationTime : Int
  /-- The answers for the successive passes of the render loop. -/
  frames : List (FrameEnv α)

/-- The matrices local to one pass of the loop body, lines 359-368. -/
structure FrameLocals (α : Type) where
  matR1 : Mat4 α
  matR2 : Mat4 α
  cam : Mat4 α
  matS : Mat4 α
  matOT : Mat4 α
  mat1 : Mat4 α
  mat2 : Mat4 α
  mat3 : Mat4 α

section Program

variable {α : Type} [Field α]

/-- Source `createVertexBuffer(location, dimensions, vertices)`, lines 46-61; `name` is what
`glGenBuffers` writes into `bufferID`. Returns `bufferID` and the calls made. -/
def createVertexBuffer (name : Nat) (location dimensions : Int) (vertices : List α) :
    Nat × List (GLCall α) :=
  let bufferID := name
  (bufferID,
    [GLCall.glGenBuffers bufferID,
     GLCall.glBindBuffer BufferTarget.arrayBuffer bufferID,
     GLCall.glBufferDataFloat BufferTarget.arrayBuffer vertices,
     GLCall.glVertexAttribPointer location dimensions,
     GLCall.glEnableVertexAttribArray location])

/-- Source `createIndexBuffer(indices)`, lines 63-74. -/
def createIndexBuffer (name : Nat) (indices : List Nat) : Nat × List (GLCall α) :=
  let bufferID := name
  (bufferID,
    [GLCall.glGenBuffers bufferID,
     GLCall.glBindBuffer BufferTarget.elementArrayBuffer bufferID,
     GLCall.glBufferDataUInt BufferTarget.elementArrayBuffer indices])

/-- The three products of lines 366-368, from the matrices built in lines 359-363 and `matT`. -/
def composeMatrices (matR1 matR2 cam matS matOT matT : Mat4 α) : FrameLocals α :=
  let mat1 := matrisMultiplikation matR1 cam
  let mat2 := matrisMultiplikation mat1 matS
  let mat3 := matrisMultiplikation matS matT
  { matR1 := matR1, matR2 := matR2, cam := cam, matS := matS, matOT := matOT,
    mat1 := mat1, mat2 := mat2, mat3 := mat3 }

/-- Lines 359-368: the elementary matrices of one pass and their products. -/
def frameLocals (cos sin : α → α) (timeR1 timeR2 : α) : FrameLocals α :=
  composeMatrices (rotY cos sin timeR1) (rotY cos sin timeR2) (rotX cos sin (3.14 / 6))
    (scale 0.9 0.9 0.0) (translation 0.5 0.5 0.0) matT

/-- One pass of the loop body, lines 324-393. -/
def renderFrame (cos sin : α → α) (vertexArrayID : Nat) (locationTime : Int)
    (fe : FrameEnv α) : List (GLCall α) :=
  let locals := frameLocals cos sin fe.timeR1 fe.timeR2
  [GLCall.glClearColor 0.3 0.3 0.3 0.0,
   GLCall.displayFPS,
   GLCall.glfwGetWindowSize fe.width fe.height,
   GLCall.glViewport 0 0 fe.width fe.height,
   GLCall.glClear,
   GLCall.glUseProgram,
   GLCall.glEnableCullFace,
   GLCall.glPolygonModeFill,
   GLCall.glCullFaceBack,
   GLCall.glfwGetTime fe.time,
   GLCall.glUseProgram,
   GLCall.glUniform1f locationTime fe.time,
   GLCall.glBindVertexArray vertexArrayID,
   GLCall.glfwGetTime fe.timeR1,
   GLCall.glfwGetTime fe.timeR2,
   GLCall.glGetUniformLocation UniformName.T fe.locationT,
   GLCall.glUseProgram,
   GLCall.glUniformMatrix4fv fe.locationT locals.mat1,
   GLCall.soupRender,
   GLCall.glfwSwapBuffers,
   GLCall.glfwPollEvents,
   GLCall.glfwGetKeyEscape fe.escPressed]
  ++ (if fe.escPressed then [GLCall.glfwSetWindowShouldClose] else [])

/-- The loop `while (!glfwWindowShouldClose(window))`, lines 323-394. `flag` is the window's
close flag; it is raised by the window system during `glfwPollEvents` or by
`glfwSetWindowShouldClose` after the escape key. The result is `none` when the flag is still
down after the last pass the environment describes (the loop has not ended). -/
def renderLoop (cos sin : α → α) (vertexArrayID : Nat) (locationTime : Int) :
    Bool → List (FrameEnv α) → Option (List (GLCall α))
  | true, _ => some [GLCall.glfwWindowShouldClose true]
  | false, [] => none
  | false, fe :: rest =>
    (renderLoop cos sin vertexArrayID locationTime (fe.closeRequested || fe.escPressed) rest).map
      fun later =>
        GLCall.glfwWindowShouldClose false ::
          (renderFrame cos sin vertexArrayID locationTime fe ++ later)

/-- The passes of the loop that are run: those up to and including the first one that raises
the close flag. -/
def executedPasses : Bool → List (FrameEnv α) → List (FrameEnv α)
  | true, _ => []
  | false, [] => []
  | false, fe :: rest => fe :: executedPasses (fe.closeRequested || fe.escPressed) rest

/-- Lines 247-263: GLFW start-up up to the attempt to open the window. -/
def openWindowCalls (env : Env α) : List (GLCall α) :=
  [GLCall.glfwInit,
   GLCall.glfwGetVideoMode env.vidmodeWidth env.vidmodeHeight,
   GLCall.glfwWindowHint WindowHint.contextVersionMajor,
   GLCall.glfwWindowHint WindowHint.contextVersionMinor,
   GLCall.glfwWindowHint WindowHint.openglProfileCore,
   GLCall.glfwWindowHint WindowHint.openglForwardCompat,
   GLCall.glfwCreateWindow (env.vidmodeHeight.tdiv 2) (env.vidmodeHeight.tdiv 2) env.windowOk]

/-- The identifiers `main` keeps from its set-up, lines 285-295. -/
structure Resources where
  vertexArrayID : Nat
  vertexBufferID : Nat
  colorBufferID : Nat
  indexBufferID : Nat
  deriving DecidableEq, Repr

/-- Lines 282-320: shader, vertex array object, the three buffers, uniform `time`, the sphere.
Returns the identifiers kept by `main` and the calls made. -/
def setup (env : Env α) : Resources × List (GLCall α) :=
  let vertexArrayID := env.vertexArrayName
  let vertexBuffer := createVertexBuffer (env.bufferName 0) 0 3 (vertexArrayData : List α)
  let colorBuffer := createVertexBuffer (env.bufferName 1) 1 3 (colorArrayData : List α)
  let indexBuffer := createIndexBuffer (env.bufferName 2) indexArrayData
  ({ vertexArrayID := vertexArrayID, vertexBufferID := vertexBuffer.1,
     colorBufferID := colorBuffer.1, indexBufferID := indexBuffer.1 },
    [GLCall.createShader,
     GLCall.glGenVertexArrays vertexArrayID,
     GLCall.glBindVertexArray vertexArrayID]
    ++ vertexBuffer.2 ++ colorBuffer.2 ++ indexBuffer.2
    ++ [GLCall.glBindVertexArray 0,
        GLCall.printContextInfo,
        GLCall.glfwSwapInterval 0,
        GLCall.glGetUniformLocation UniformName.time env.locationTime]
    ++ (if env.locationTime = -1 then [GLCall.printUniformNotFound] else [])
    ++ [GLCall.createSphere 0.8 200])

/-- Lines 395-403: the deletions, the shutdown of GLFW, and the end of the scope of the local
`mySoup`. -/
def shutdownCalls (res : Resources) : List (GLCall α) :=
  [GLCall.glDeleteVertexArrays res.vertexArrayID,
   GLCall.glDeleteBuffers res.vertexBufferID,
   GLCall.glDeleteBuffers res.colorBufferID,
   GLCall.glDeleteBuffers res.indexBufferID,
   GLCall.glfwDestroyWindow,
   GLCall.glfwTerminate,
   GLCall.soupOutOfScope]

/-- Source `main`, lines 116-403: the return value and the external calls in order, or `none`
when the render loop has not ended within the passes the environment describes. -/
def mainProgram (cos sin : α → α) (env : Env α) : Option (Int × List (GLCall α)) :=
  if !env.windowOk then
    some (-1, openWindowCalls env ++ [GLCall.printUnableToOpenWindow, GLCall.glfwTerminate])
  else if !env.glewOk then
    some (-1, openWindowCalls env
      ++ [GLCall.glfwMakeContextCurrent, GLCall.glewInit false,
          GLCall.printGlewError, GLCall.glfwTerminate])
  else
    let started := setup env
    (renderLoop cos sin started.1.vertexArrayID env.locationTime false env.frames).map
      fun loopCalls =>
        (0, openWindowCalls env
          ++ [GLCall.glfwMakeContextCurrent, GLCall.glewInit true]
          ++ started.2
          ++ loopCalls
          ++ shutdownCalls started.1)

/-- The handle a call creates, if it creates one. -/
def createdBy : GLCall α → Option Handle
  | GLCall.glGenVertexArrays name => some (Handle.vertexArray name)
  | GLCall.glGenBuffers name => some (Handle.buffer name)
  | _ => none

/-- The handle a call deletes, if it deletes one. -/
def deletedBy : GLCall α → Option Handle
  | GLCall.glDeleteVertexArrays name => some (Handle.vertexArray name)
  | GLCall.glDeleteBuffers name => some (Handle.buffer name)
  | _ => none

/-- The matrix a call uploads with `glUniformMatrix4fv`, with its location. -/
def uploadedBy : GLCall α → Option (Int × Mat4 α)
  | GLCall.glUniformMatrix4fv location value => some (location, value)
  | _ => none

/-- The handles created by `main` itself, in creation order. -/
def createdHandles (calls : List (GLCall α)) : List Handle :=
  calls.filterMap createdBy

/-- The handles deleted by `main` itself, in deletion order. -/
def deletedHandles (calls : List (GLCall α)) : List Handle :=
  calls.filterMap deletedBy

/-- The matrices uploaded with `glUniformMatrix4fv`, in order. -/
def uploadedMatrices (calls : List (GLCall α)) : List (Int × Mat4 α) :=
  calls.filterMap uploadedBy

/-- A run in which the window opens, GLEW initialises, and the escape key is down in the
second pass of the loop. -/
def sampleEnv : Env α :=
  { vidmodeWidth := 1920
    vidmodeHeight := 1080
    windowOk := true
    glewOk := true
    vertexArrayName := 1
    bufferName := fun n => n + 1
    locationTime := 0
    frames :=
      [{ width := 540, height := 540, time := 0, timeR1 := 0, timeR2 := 0, locationT := 1,
         closeRequested := false, escPressed := false },
       { width := 540, height := 540, time := 1, timeR1 := 1, timeR2 := 1, locationT := 1,
         closeRequested := false, escPressed := true }] }

end Program

/-! ## Matrix product -/

section Product

variable {α : Type} [Field α]

/-- The innermost loop adds the products to one entry and touches nothing else. -/
theorem foldl_accumulate (p : Fin 16) (f : Fin 4 → α) (ks : List (Fin 4)) (r : Mat4 α) :
    ks.foldl (fun r k => Function.update r p (r p + f k)) r
      = Function.update r p (r p + (ks.map f).sum) := by
  induction ks generalizing r with
  | nil => simp
  | cons k ks ih =>
    rw [List.foldl_cons, ih]
    simp [add_assoc]

/-- A loop that only overwrites entries leaves every entry it never addresses unchanged. -/
theorem foldl_assign_other {α ι : Type} (pos : ι → Fin 16) (val : ι → α) (q : Fin 16)
    (l : List ι) (r : Mat4 α) (hq : ∀ x ∈ l, pos x ≠ q) :
    l.foldl (fun r x => Function.update r (pos x) (val x)) r q = r q := by
  induction l generalizing r with
  | nil => rfl
  | cons x l ih =>
    rw [List.foldl_cons, ih _ (fun y hy => hq y (List.mem_cons_of_mem _ hy))]
    exact Function.update_noteq (Ne.symm (hq x (List.mem_cons_self _ _))) _ _

/-- A loop that overwrites each addressed entry once leaves the assigned value there. -/
theorem foldl_assign_mem {α ι : Type} (pos : ι → Fin 16) (val : ι → α)
    (hpos : Function.Injective pos) (l : List ι) (hl : l.Nodup) (r : Mat4 α)
    (x : ι) (hx : x ∈ l) :
    l.foldl (fun r x => Function.update r (pos x) (val x)) r (pos x) = val x := by
  induction l generalizing r with
  | nil => cases hx
  | cons y l ih =>
    rw [List.foldl_cons]
    rcases List.mem_cons.1 hx with rfl | hmem
    · rw [foldl_assign_other pos val (pos x) l _
        (fun z hz hzx => (List.nodup_cons.1 hl).1 (hpos hzx ▸ hz))]
      exact Function.update_same _ _ _
    · exact ih (List.nodup_cons.1 hl).2 _ hmem

/-- Two nested loops are one loop over the pairs of their indices, in the same order. -/
theorem foldl_nested {β ι κ : Type} (g : β → ι → κ → β) (js : List κ) (is : List ι)
    (r : β) :
    is.foldl (fun r i => js.foldl (fun r j => g r i j) r) r
      = (is.flatMap fun i => js.map fun j => (i, j)).foldl (fun r x => g r x.1 x.2) r := by
  induction is generalizing r with
  | nil => rfl
  | cons i is ih =>
    rw [List.foldl_cons, ih, List.flatMap_cons, List.foldl_append, List.foldl_map]

theorem idx_injective : Function.Injective fun x : Fin 4 × Fin 4 => idx x.1 x.2 := by
  rintro ⟨i, j⟩ ⟨i', j'⟩ h
  have h1 : i.val * 4 + j.val = i'.val * 4 + j'.val := congrArg Fin.val h
  have hi : i = i' := Fin.ext (by omega)
  have hj : j = j' := Fin.ext (by omega)
  rw [hi, hj]

/-- The loops as one pass over the sixteen entries, each set to its row-by-column sum. -/
theorem matrisMultiplikationLoops_eq (g a b : Mat4 α) :
    matrisMultiplikationLoops g a b
      = ((List.finRange 4).flatMap fun i => (List.finRange 4).map fun j => (i, j)).foldl
          (fun r x => Function.update r (idx x.1 x.2)
            (((List.finRange 4).map fun k => a (idx x.1 k) * b (idx k x.2)).sum)) g := by
  unfold matrisMultiplikationLoops
  generalize List.finRange 4 = l
  have hstep : (fun (result : Mat4 α) (i : Fin 4) => l.foldl (fun result j =>
        l.foldl (fun result k =>
            Function.update result (idx i j) (result (idx i j) + a (idx i k) * b (idx k j)))
          (Function.update result (idx i j) 0)) result)
      = fun r i => l.foldl (fun r j => Function.update r (idx i j)
          ((l.map fun k => a (idx i k) * b (idx k j)).sum)) r := by
    funext r i
    congr 1
    funext r j
    rw [foldl_accumulate (idx i j) (fun k => a (idx i k) * b (idx k j))]
    simp
  rw [hstep]
  exact foldl_nested (fun r i j => Function.update r (idx i j)
    ((l.map fun k => a (idx i k) * b (idx k j)).sum)) l l g

theorem matrisMultiplikationLoops_entry (g a b : Mat4 α) (i j : Fin 4) :
    matrisMultiplikationLoops g a b (idx i j) = ∑ k : Fin 4, a (idx i k) * b (idx k j) := by
  rw [matrisMultiplikationLoops_eq]
  have h := foldl_assign_mem (fun x : Fin 4 × Fin 4 => idx x.1 x.2)
    (fun x => ((List.finRange 4).map fun k => a (idx x.1 k) * b (idx k x.2)).sum)
    idx_injective
    ((List.finRange 4).flatMap fun i => (List.finRange 4).map fun j => (i, j))
    (by decide) g (i, j) (by revert i j; decide)
  rw [Fin.sum_univ_def]
  exact h

/-- The start contents of the local array `result` do not reach the returned matrix. -/
theorem matrisMultiplikationLoops_init (g a b : Mat4 α) :
    matrisMultiplikationLoops g a b = matrisMultiplikation a b := by
  funext p
  have hp : p = idx ⟨p.val / 4, by omega⟩ ⟨p.val % 4, by omega⟩ := by
    apply Fin.ext
    simp only [idx]
    omega
  rw [hp, matrisMultiplikation, matrisMultiplikationLoops_entry, matrisMultiplikationLoops_entry]

theorem matrisMultiplikation_entry (a b : Mat4 α) (i j : Fin 4) :
    matrisMultiplikation a b (idx i j) = ∑ k : Fin 4, a (idx i k) * b (idx k j) :=
  matrisMultiplikationLoops_entry _ a b i j

theorem toMatrix_injective {α : Type} :
    Function.Injective (toMatrix : Mat4 α → Matrix (Fin 4) (Fin 4) α) := by
  intro m n h
  funext p
  have hp : p = idx ⟨p.val / 4, by omega⟩ ⟨p.val % 4, by omega⟩ := by
    apply Fin.ext
    simp only [idx]
    omega
  rw [hp]
  exact congrFun (congrFun h _) _

theorem toMatrix_matrisMultiplikation (a b : Mat4 α) :
    toMatrix (matrisMultiplikation a b) = toMatrix a * toMatrix b := by
  ext i j
  simp [toMatrix, Matrix.mul_apply, matrisMultiplikation_entry]

/-- An initialiser list read as a matrix literal, four entries per row. -/
theorem toMatrix_literal {α : Type} (a0 a1 a2 a3 a4 a5 a6 a7 a8 a9 a10 a11 a12 a13 a14 a15 : α) :
    toMatrix ![a0, a1, a2, a3, a4, a5, a6, a7, a8, a9, a10, a11, a12, a13, a14, a15]
      = !![a0, a1, a2, a3; a4, a5, a6, a7; a8, a9, a10, a11; a12, a13, a14, a15] := by
  ext i j
  fin_cases i <;> fin_cases j <;> rfl

theorem one_fin_four :
    (1 : Matrix (Fin 4) (Fin 4) α) = !![1, 0, 0, 0; 0, 1, 0, 0; 0, 0, 1, 0; 0, 0, 0, 1] := by
  ext i j
  fin_cases i <;> fin_cases j <;> rfl

/-- The upper-left block of an initialiser list. -/
theorem upperLeft_literal {α : Type} (a0 a1 a2 a3 a4 a5 a6 a7 a8 a9 a10 a11 a12 a13 a14 a15 : α) :
    upperLeft ![a0, a1, a2, a3, a4, a5, a6, a7, a8, a9, a10, a11, a12, a13, a14, a15]
      = !![a0, a1, a2; a4, a5, a6; a8, a9, a10] := by
  ext i j
  fin_cases i <;> fin_cases j <;> rfl

/-- Row 3 and column 3 of an initialiser list. -/
theorem literal_last {α : Type} (a0 a1 a2 a3 a4 a5 a6 a7 a8 a9 a10 a11 a12 a13 a14 a15 : α) :
    (∀ j : Fin 4,
        (![a0, a1, a2, a3, a4, a5, a6, a7, a8, a9, a10, a11, a12, a13, a14, a15] : Mat4 α)
          (idx 3 j) = ![a12, a13, a14, a15] j) ∧
      (∀ i : Fin 4,
        (![a0, a1, a2, a3, a4, a5, a6, a7, a8, a9, a10, a11, a12, a13, a14, a15] : Mat4 α)
          (idx i 3) = ![a3, a7, a11, a15] i) := by
  constructor
  · intro j
    fin_cases j <;> rfl
  · intro i
    fin_cases i <;> rfl

end Product

/-! ## The call sequence of `main` -/

section Run

variable {α : Type} [Field α]

theorem createdHandles_append {α : Type} (xs ys : List (GLCall α)) :
    createdHandles (xs ++ ys) = createdHandles xs ++ createdHandles ys :=
  List.filterMap_append _ _ _

theorem deletedHandles_append {α : Type} (xs ys : List (GLCall α)) :
    deletedHandles (xs ++ ys) = deletedHandles xs ++ deletedHandles ys :=
  List.filterMap_append _ _ _

theorem uploadedMatrices_append {α : Type} (xs ys : List (GLCall α)) :
    uploadedMatrices (xs ++ ys) = uploadedMatrices xs ++ uploadedMatrices ys :=
  List.filterMap_append _ _ _

/-- One pass of the loop creates no handle, deletes none, and uploads `mat1` once. -/
theorem renderFrame_effects (cos sin : α → α) (vertexArrayID : Nat) (locationTime : Int)
    (fe : FrameEnv α) :
    createdHandles (renderFrame cos sin vertexArrayID locationTime fe) = [] ∧
      deletedHandles (renderFrame cos sin vertexArrayID locationTime fe) = [] ∧
      uploadedMatrices (renderFrame cos sin vertexArrayID locationTime fe)
        = [(fe.locationT, (frameLocals cos sin fe.timeR1 fe.timeR2).mat1)] := by
  cases h : fe.escPressed <;>
    simp [renderFrame, h, createdHandles, deletedHandles, uploadedMatrices, createdBy,
      deletedBy, uploadedBy]

/-- The matrix `mat1` of a pass is the product of `rotY` of the reading of line 359 and the
camera tilt `rotX(3.14/6)`. -/
theorem frameLocals_mat1 (cos sin : α → α) (timeR1 timeR2 : α) :
    (frameLocals cos sin timeR1 timeR2).mat1
      = matrisMultiplikation (rotY cos sin timeR1) (rotX cos sin (3.14 / 6)) := rfl

/-- Multiplying by the literal `matT` on the right changes nothing. -/
theorem matrisMultiplikation_matT (m : Mat4 α) : matrisMultiplikation m matT = m := by
  apply toMatrix_injective
  rw [toMatrix_matrisMultiplikation, matT, toMatrix_literal, ← one_fin_four, mul_one]

/-- The loop ends as soon as the flag is up or some described pass raises it; its passes create
and delete no handle, and upload exactly one matrix per executed pass. -/
theorem renderLoop_ends (cos sin : α → α) (vertexArrayID : Nat) (locationTime : Int)
    (frames : List (FrameEnv α)) (flag : Bool)
    (h : flag = true ∨ ∃ fe ∈ frames, fe.closeRequested = true ∨ fe.escPressed = true) :
    ∃ calls, renderLoop cos sin vertexArrayID locationTime flag frames = some calls ∧
      createdHandles calls = [] ∧ deletedHandles calls = [] ∧
      uploadedMatrices calls = (executedPasses flag frames).map fun fe =>
        (fe.locationT,
          matrisMultiplikation (rotY cos sin fe.timeR1) (rotX cos sin (3.14 / 6))) := by
  induction frames generalizing flag with
  | nil =>
    rcases h with rfl | ⟨fe, hfe, _⟩
    · exact ⟨_, rfl, rfl, rfl, rfl⟩
    · cases hfe
  | cons fe rest ih =>
    cases flag with
    | true => exact ⟨_, rfl, rfl, rfl, rfl⟩
    | false =>
      have hnext : (fe.closeRequested || fe.escPressed) = true ∨
          ∃ fe' ∈ rest, fe'.closeRequested = true ∨ fe'.escPressed = true := by
        rcases h with h | ⟨fe', hmem, hclose⟩
        · cases h
        · rcases List.mem_cons.1 hmem with rfl | hrest
          · left
            rcases hclose with hc | hc <;> simp [hc]
          · exact Or.inr ⟨fe', hrest, hclose⟩
      obtain ⟨later, hloop, hcreated, hdeleted, huploaded⟩ := ih _ hnext
      obtain ⟨fcreated, fdeleted, fuploaded⟩ :=
        renderFrame_effects cos sin vertexArrayID locationTime fe
      refine ⟨GLCall.glfwWindowShouldClose false ::
        (renderFrame cos sin vertexArrayID locationTime fe ++ later), ?_, ?_, ?_, ?_⟩
      · simp [renderLoop, hloop]
      · rw [← List.singleton_append, createdHandles_append, createdHandles_append, fcreated,
          hcreated]
        rfl
      · rw [← List.singleton_append, deletedHandles_append, deletedHandles_append, fdeleted,
          hdeleted]
        rfl
      · rw [← List.singleton_append, uploadedMatrices_append, uploadedMatrices_append,
          fuploaded, huploaded, frameLocals_mat1]
        rfl

theorem setup_created (env : Env α) :
    createdHandles (setup env).2
      = [Handle.vertexArray env.vertexArrayName, Handle.buffer (env.bufferName 0),
          Handle.buffer (env.bufferName 1), Handle.buffer (env.bufferName 2)] ∧
      deletedHandles (setup env).2 = [] ∧ uploadedMatrices (setup env).2 = [] := by
  by_cases h : env.locationTime = -1 <;>
    simp [setup, h, createVertexBuffer, createIndexBuffer, createdHandles, deletedHandles,
      uploadedMatrices, createdBy, deletedBy, uploadedBy]

theorem shutdown_deleted (env : Env α) :
    deletedHandles ((shutdownCalls (setup env).1 : List (GLCall α)))
      = [Handle.vertexArray env.vertexArrayName, Handle.buffer (env.bufferName 0),
          Handle.buffer (env.bufferName 1), Handle.buffer (env.bufferName 2)] ∧
      createdHandles ((shutdownCalls (setup env).1 : List (GLCall α))) = [] ∧
      uploadedMatrices ((shutdownCalls (setup env).1 : List (GLCall α))) = [] :=
  ⟨rfl, rfl, rfl⟩

/-- The normal path of `main`: with a window, GLEW initialised and a loop that ends, `main`
returns 0, and the handles it creates, the handles it deletes and the matrices it uploads are
those of the set-up, the executed passes and the shutdown. -/
theorem mainProgram_normal (cos sin : α → α) (env : Env α)
    (hw : env.windowOk = true) (hg : env.glewOk = true)
    (hend : ∃ fe ∈ env.frames, fe.closeRequested = true ∨ fe.escPressed = true) :
    ∃ calls, mainProgram cos sin env = some (0, calls) ∧
      createdHandles calls
        = [Handle.vertexArray env.vertexArrayName, Handle.buffer (env.bufferName 0),
            Handle.buffer (env.bufferName 1), Handle.buffer (env.bufferName 2)] ∧
      deletedHandles calls
        = [Handle.vertexArray env.vertexArrayName, Handle.buffer (env.bufferName 0),
            Handle.buffer (env.bufferName 1), Handle.buffer (env.bufferName 2)] ∧
      uploadedMatrices calls = (executedPasses false env.frames).map fun fe =>
        (fe.locationT,
          matrisMultiplikation (rotY cos sin fe.timeR1) (rotX cos sin (3.14 / 6))) := by
  obtain ⟨loopCalls, hloop, hcreated, hdeleted, huploaded⟩ :=
    renderLoop_ends cos sin (setup env).1.vertexArrayID env.locationTime env.frames false
      (Or.inr hend)
  obtain ⟨screated, sdeleted, suploaded⟩ := setup_created env
  obtain ⟨ddeleted, dcreated, duploaded⟩ := shutdown_deleted env
  refine ⟨openWindowCalls env ++ [GLCall.glfwMakeContextCurrent, GLCall.glewInit true]
    ++ (setup env).2 ++ loopCalls ++ shutdownCalls (setup env).1, ?_, ?_, ?_, ?_⟩
  · simp only [mainProgram, hw, hg, Bool.not_true, Bool.false_eq_true, if_false, hloop,
      Option.map_some']
  · simp only [createdHandles_append, screated, hcreated, dcreated]
    rfl
  · simp only [deletedHandles_append, sdeleted, hdeleted, ddeleted]
    rfl
  · simp only [uploadedMatrices_append, suploaded, huploaded, duploaded, List.append_nil]
    exact List.nil_append _

end Run

/-! ## Claims on the matrix utilities -/

/-- C1: for all 4x4 real matrices `a`, `b` and all `i`, `j` in `0..3`, entry `[i*4+j]` of
`matrisMultiplikation(a, b)` is the sum over `k = 0..3` of `a[i*4+k] * b[k*4+j]`, so the result
is the standard matrix product; the function is total (every index it forms is in range) and
the uninitialised contents of its local array never reach the result. -/
theorem C1_matrisMultiplikation_is_matrix_product (a b : Mat4 ℝ) :
    (∀ i j : Fin 4,
        matrisMultiplikation a b (idx i j) = ∑ k : Fin 4, a (idx i k) * b (idx k j)) ∧
      toMatrix (matrisMultiplikation a b) = toMatrix a * toMatrix b ∧
      ∀ garbage : Mat4 ℝ, matrisMultiplikationLoops garbage a b = matrisMultiplikation a b :=
  ⟨matrisMultiplikation_entry a b, toMatrix_matrisMultiplikation a b,
    fun g => matrisMultiplikationLoops_init g a b⟩

/-- C2: `matrisMultiplikation` is associative on real 4x4 matrices. -/
theorem C2_matrisMultiplikation_assoc (a b c : Mat4 ℝ) :
    matrisMultiplikation (matrisMultiplikation a b) c
      = matrisMultiplikation a (matrisMultiplikation b c) := by
  apply toMatrix_injective
  rw [toMatrix_matrisMultiplikation, toMatrix_matrisMultiplikation,
    toMatrix_matrisMultiplikation, toMatrix_matrisMultiplikation, Matrix.mul_assoc]

/-- C3: rotations about the Y axis compose additively: for all real `theta1`, `theta2`,
`rotY(theta1 + theta2)` equals `matrisMultiplikation(rotY(theta1), rotY(theta2))`. -/
theorem C3_rotY_add (theta1 theta2 : ℝ) :
    rotY Real.cos Real.sin (theta1 + theta2)
      = matrisMultiplikation (rotY Real.cos Real.sin theta1) (rotY Real.cos Real.sin theta2) := by
  apply toMatrix_injective
  rw [toMatrix_matrisMultiplikation]
  simp only [rotY, toMatrix_literal]
  rw [← Matrix.ext_iff]
  simp [Fin.forall_fin_succ, Matrix.mul_apply, Fin.sum_univ_succ, Real.cos_add, Real.sin_add]
  repeat' apply And.intro
  all_goals ring

/-- C4: for every real `theta`, `matrisMultiplikation(rotX(theta), rotX(-theta))` is the 4x4
identity matrix (the literal `matT`, and the unit matrix when read as a matrix). -/
theorem C4_rotX_neg_round_trip (theta : ℝ) :
    matrisMultiplikation (rotX Real.cos Real.sin theta) (rotX Real.cos Real.sin (-theta)) = matT ∧
      toMatrix (matrisMultiplikation (rotX Real.cos Real.sin theta)
        (rotX Real.cos Real.sin (-theta))) = 1 := by
  have key : toMatrix (matrisMultiplikation (rotX Real.cos Real.sin theta)
      (rotX Real.cos Real.sin (-theta))) = 1 := by
    rw [toMatrix_matrisMultiplikation, one_fin_four]
    simp only [rotX, toMatrix_literal]
    have h := Real.cos_sq_add_sin_sq theta
    rw [← Matrix.ext_iff]
    simp [Fin.forall_fin_succ, Matrix.mul_apply, Fin.sum_univ_succ]
    repeat' apply And.intro
    all_goals nlinarith [h]
  refine ⟨toMatrix_injective ?_, key⟩
  rw [key, one_fin_four, matT, toMatrix_literal]

/-- C5: for every real `theta`, each of `rotX(theta)`, `rotY(theta)`, `rotZ(theta)` has an
orthogonal upper-left 3x3 block, determinant 1, and last row and last column `[0, 0, 0, 1]`. -/
theorem C5_rotations_orthogonal_det_one (theta : ℝ) :
    IsHomogeneousRotation (rotX Real.cos Real.sin theta) ∧
      IsHomogeneousRotation (rotY Real.cos Real.sin theta) ∧
      IsHomogeneousRotation (rotZ Real.cos Real.sin theta) := by
  have h := Real.cos_sq_add_sin_sq theta
  refine ⟨⟨?_, ?_, ?_, ?_, ?_⟩, ⟨?_, ?_, ?_, ?_, ?_⟩, ⟨?_, ?_, ?_, ?_, ?_⟩⟩
  · simp only [rotX, upperLeft_literal]
    rw [Matrix.one_fin_three]
    rw [← Matrix.ext_iff]
    simp [Fin.forall_fin_succ, Matrix.mul_apply, Fin.sum_univ_succ]
    repeat' apply And.intro
    all_goals nlinarith [h]
  · simp only [rotX, toMatrix_literal]
    simp [Matrix.det_succ_row_zero, Fin.sum_univ_succ, Matrix.det_fin_three, Fin.succAbove]
    nlinarith [h]
  · simp only [rotX, upperLeft_literal]
    simp [Matrix.det_fin_three]
    nlinarith [h]
  · exact (literal_last _ _ _ _ _ _ _ _ _ _ _ _ _ _ _ _).1
  · exact (literal_last _ _ _ _ _ _ _ _ _ _ _ _ _ _ _ _).2
  · simp only [rotY, upperLeft_literal]
    rw [Matrix.one_fin_three]
    rw [← Matrix.ext_iff]
    simp [Fin.forall_fin_succ, Matrix.mul_apply, Fin.sum_univ_succ]
    repeat' apply And.intro
    all_goals nlinarith [h]
  · simp only [rotY, toMatrix_literal]
    simp [Matrix.det_succ_row_zero, Fin.sum_univ_succ, Matrix.det_fin_three, Fin.succAbove]
    nlinarith [h]
  · simp only [rotY, upperLeft_literal]
    simp [Matrix.det_fin_three]
    nlinarith [h]
  · exact (literal_last _ _ _ _ _ _ _ _ _ _ _ _ _ _ _ _).1
  · exact (literal_last _ _ _ _ _ _ _ _ _ _ _ _ _ _ _ _).2
  · simp only [rotZ, upperLeft_literal]
    rw [Matrix.one_fin_three]
    rw [← Matrix.ext_iff]
    simp [Fin.forall_fin_succ, Matrix.mul_apply, Fin.sum_univ_succ]
    repeat' apply And.intro
    all_goals nlinarith [h]
  · simp only [rotZ, toMatrix_literal]
    simp [Matrix.det_succ_row_zero, Fin.sum_univ_succ, Matrix.det_fin_three, Fin.succAbove]
    nlinarith [h]
  · simp only [rotZ, upperLeft_literal]
    simp [Matrix.det_fin_three]
    nlinarith [h]
  · exact (literal_last _ _ _ _ _ _ _ _ _ _ _ _ _ _ _ _).1
  · exact (literal_last _ _ _ _ _ _ _ _ _ _ _ _ _ _ _ _).2

/-- C6: `translation(0, 0, 0)` and `scale(1, 1, 1)` are both exactly the identity matrix, the
same sixteen entries as the literal `matT` of `main` (1 on the diagonal, 0 elsewhere). -/
theorem C6_translation_zero_scale_one_identity :
    translation (0 : ℝ) 0 0 = matT ∧ scale (1 : ℝ) 1 1 = matT ∧
      (∀ i j : Fin 4, (matT : Mat4 ℝ) (idx i j) = if i = j then 1 else 0) ∧
      toMatrix (matT : Mat4 ℝ) = 1 := by
  refine ⟨rfl, rfl, ?_, ?_⟩
  · intro i j
    fin_cases i <;> fin_cases j <;> rfl
  · rw [one_fin_four, matT, toMatrix_literal]

/-- C8 (as stated, refuted): `translation(1, 0, 0)` has element `[12]` equal to 1, so the
bottom row of a translation is not `[0, 0, 0, 1]`. -/
theorem C8_translation_bottom_row_counterexample :
    ¬ ((translation (1 : ℝ) 0 0) 12 = 0 ∧ (translation (1 : ℝ) 0 0) 13 = 0 ∧
        (translation (1 : ℝ) 0 0) 14 = 0 ∧ (translation (1 : ℝ) 0 0) 15 = 1) := by
  intro h
  have h12 : (translation (1 : ℝ) 0 0) 12 = 1 := rfl
  rw [h12] at h
  exact one_ne_zero h.1

/-- C8 (amended): for all real `theta`, `x`, `y`, `z`, each of `rotX(theta)`, `rotY(theta)`,
`rotZ(theta)` and `scale(x, y, z)` has elements `[12]`, `[13]`, `[14]`, `[15]` (row 3) equal to
`0, 0, 0, 1`, while `translation(x, y, z)` has these elements equal to `x, y, z, 1` and has
`0, 0, 0, 1` in elements `[3]`, `[7]`, `[11]`, `[15]` (column 3). -/
theorem C8_bottom_row (theta x y z : ℝ) :
    (∀ m ∈ [rotX Real.cos Real.sin theta, rotY Real.cos Real.sin theta,
        rotZ Real.cos Real.sin theta, scale x y z],
      m 12 = 0 ∧ m 13 = 0 ∧ m 14 = 0 ∧ m 15 = 1 ∧
        ∀ j : Fin 4, m (idx 3 j) = ![0, 0, 0, 1] j) ∧
      (translation x y z 12 = x ∧ translation x y z 13 = y ∧ translation x y z 14 = z ∧
        translation x y z 15 = 1 ∧
        (∀ j : Fin 4, translation x y z (idx 3 j) = ![x, y, z, 1] j) ∧
        (∀ i : Fin 4, translation x y z (idx i 3) = ![0, 0, 0, 1] i)) := by
  refine ⟨?_, rfl, rfl, rfl, rfl, (literal_last _ _ _ _ _ _ _ _ _ _ _ _ _ _ _ _).1,
    (literal_last _ _ _ _ _ _ _ _ _ _ _ _ _ _ _ _).2⟩
  intro m hm
  simp only [List.mem_cons, List.mem_singleton, List.not_mem_nil, or_false] at hm
  rcases hm with rfl | rfl | rfl | rfl <;>
    exact ⟨rfl, rfl, rfl, rfl, (literal_last _ _ _ _ _ _ _ _ _ _ _ _ _ _ _ _).1⟩

/-! ## Claims on the mesh and on `main` -/

/-- C7: the cube mesh of `main` is well formed: `vertexArrayData` holds 72 floats, that is 24
vertices of the 3 dimensions passed with it to `createVertexBuffer`; `indexArrayData` holds 36
indices, a multiple of 3; and every index is below 24. -/
theorem C7_cube_mesh_well_formed :
    (vertexArrayData : List ℝ).length = 72 ∧
      (vertexArrayData : List ℝ).length = 24 * 3 ∧
      (vertexArrayData : List ℝ).length % 3 = 0 ∧
      indexArrayData.length = 36 ∧
      indexArrayData.length % 3 = 0 ∧
      (∀ i ∈ indexArrayData, i < 24) ∧
      (∀ i ∈ indexArrayData, i < (vertexArrayData : List ℝ).length / 3) ∧
      (∀ env : Env ℝ,
        [GLCall.glBufferDataFloat BufferTarget.arrayBuffer (vertexArrayData : List ℝ),
          GLCall.glVertexAttribPointer 0 3] <:+: (setup env).2) ∧
      (∀ env : Env ℝ,
        GLCall.glBufferDataUInt BufferTarget.elementArrayBuffer indexArrayData
          ∈ (setup env).2) := by
  refine ⟨rfl, rfl, rfl, rfl, rfl, by decide, by decide, ?_, ?_⟩
  · intro env
    refine ⟨[GLCall.createShader, GLCall.glGenVertexArrays env.vertexArrayName,
      GLCall.glBindVertexArray env.vertexArrayName, GLCall.glGenBuffers (env.bufferName 0),
      GLCall.glBindBuffer BufferTarget.arrayBuffer (env.bufferName 0)], ?_, ?_⟩
    · exact [GLCall.glEnableVertexAttribArray 0]
        ++ (createVertexBuffer (env.bufferName 1) 1 3 (colorArrayData : List ℝ)).2
        ++ (createIndexBuffer (env.bufferName 2) indexArrayData).2
        ++ [GLCall.glBindVertexArray 0, GLCall.printContextInfo, GLCall.glfwSwapInterval 0,
            GLCall.glGetUniformLocation UniformName.time env.locationTime]
        ++ (if env.locationTime = -1 then [GLCall.printUniformNotFound] else [])
        ++ [GLCall.createSphere 0.8 200]
    · simp [setup, createVertexBuffer, createIndexBuffer]
  · intro env
    simp [setup, createVertexBuffer, createIndexBuffer]

/-- C9 (as stated, refuted): in the run `sampleEnv` (window and GLEW succeed, the loop ends in
its second pass) `main` returns 0, creates vertex array 1 and buffers 1, 2, 3 in this order and
deletes them in this same order, which is not the reverse of the creation order. -/
theorem C9_reverse_order_counterexample :
    (sampleEnv : Env ℝ).windowOk = true ∧ (sampleEnv : Env ℝ).glewOk = true ∧
      ∃ calls, mainProgram Real.cos Real.sin (sampleEnv : Env ℝ) = some (0, calls) ∧
        createdHandles calls
          = [Handle.vertexArray 1, Handle.buffer 1, Handle.buffer 2, Handle.buffer 3] ∧
        deletedHandles calls
          = [Handle.vertexArray 1, Handle.buffer 1, Handle.buffer 2, Handle.buffer 3] ∧
        deletedHandles calls ≠ (createdHandles calls).reverse := by
  refine ⟨rfl, rfl, ?_⟩
  obtain ⟨calls, hmain, hcreated, hdeleted, _⟩ :=
    mainProgram_normal Real.cos Real.sin (sampleEnv : Env ℝ) rfl rfl
      ⟨_, List.mem_cons_of_mem _ (List.mem_cons_self _ _), Or.inr rfl⟩
  refine ⟨calls, hmain, hcreated, hdeleted, ?_⟩
  rw [hcreated, hdeleted]
  decide

/-- C9 (amended): on the normal exit path of `main` (window and GLEW initialisation succeed,
the loop ends), `main` returns 0 and the sequence of GPU handles deleted at shutdown equals the
sequence in which they were created at start-up (vertex array object, vertex buffer, colour
buffer, index buffer), in that same order; the three buffer names being pairwise distinct, each
created handle is deleted exactly once. -/
theorem C9_handles_deleted_in_creation_order (env : Env ℝ)
    (hw : env.windowOk = true) (hg : env.glewOk = true)
    (hend : ∃ fe ∈ env.frames, fe.closeRequested = true ∨ fe.escPressed = true)
    (hnames : env.bufferName 0 ≠ env.bufferName 1 ∧ env.bufferName 0 ≠ env.bufferName 2 ∧
      env.bufferName 1 ≠ env.bufferName 2) :
    ∃ calls, mainProgram Real.cos Real.sin env = some (0, calls) ∧
      createdHandles calls
        = [Handle.vertexArray env.vertexArrayName, Handle.buffer (env.bufferName 0),
            Handle.buffer (env.bufferName 1), Handle.buffer (env.bufferName 2)] ∧
      deletedHandles calls = createdHandles calls ∧
      ∀ h ∈ createdHandles calls, (deletedHandles calls).count h = 1 := by
  obtain ⟨calls, hmain, hcreated, hdeleted, _⟩ :=
    mainProgram_normal Real.cos Real.sin env hw hg hend
  refine ⟨calls, hmain, hcreated, hdeleted.trans hcreated.symm, ?_⟩
  intro h hh
  rw [hdeleted]
  rw [hcreated] at hh
  apply List.count_eq_one_of_mem _ hh
  obtain ⟨h01, h02, h12⟩ := hnames
  simp [h01, h02, h12]

/-- C9 (amended), at the run `sampleEnv`. -/
theorem C9_handles_deleted_in_creation_order_witness :
    ((sampleEnv : Env ℝ).windowOk = true ∧ (sampleEnv : Env ℝ).glewOk = true) ∧
      ∃ calls, mainProgram Real.cos Real.sin (sampleEnv : Env ℝ) = some (0, calls) ∧
        createdHandles calls
          = [Handle.vertexArray (sampleEnv : Env ℝ).vertexArrayName,
              Handle.buffer ((sampleEnv : Env ℝ).bufferName 0),
              Handle.buffer ((sampleEnv : Env ℝ).bufferName 1),
              Handle.buffer ((sampleEnv : Env ℝ).bufferName 2)] ∧
        deletedHandles calls = createdHandles calls ∧
        ∀ h ∈ createdHandles calls, (deletedHandles calls).count h = 1 :=
  ⟨⟨rfl, rfl⟩,
    C9_handles_deleted_in_creation_order sampleEnv rfl rfl
      ⟨_, List.mem_cons_of_mem _ (List.mem_cons_self _ _), Or.inr rfl⟩ (by decide)⟩

/-- C10: on the normal path of `main`, the matrices uploaded with `glUniformMatrix4fv` are, for
the passes of the loop that are run and in their order,
`matrisMultiplikation(rotY(t), rotX(3.14/6))` for the reading `t` of `glfwGetTime()` that builds
`matR1` in that pass, sent to the location of `"T"`, and nothing else: each pass uploads exactly
this one matrix, `mat1`, whatever the values of `matR2`, `matS`, `matOT` and `matT`; and
`mat3 = matrisMultiplikation(matS, matT)` equals `matS = scale(0.9, 0.9, 0.0)`. -/
theorem C10_uploaded_matrix_is_mat1 (env : Env ℝ)
    (hw : env.windowOk = true) (hg : env.glewOk = true)
    (hend : ∃ fe ∈ env.frames, fe.closeRequested = true ∨ fe.escPressed = true) :
    (∃ calls, mainProgram Real.cos Real.sin env = some (0, calls) ∧
        uploadedMatrices calls = (executedPasses false env.frames).map fun fe =>
          (fe.locationT,
            matrisMultiplikation (rotY Real.cos Real.sin fe.timeR1)
              (rotX Real.cos Real.sin (3.14 / 6)))) ∧
      (∀ (vertexArrayID : Nat) (locationTime : Int) (fe : FrameEnv ℝ),
        uploadedMatrices (renderFrame Real.cos Real.sin vertexArrayID locationTime fe)
          = [(fe.locationT,
              matrisMultiplikation (rotY Real.cos Real.sin fe.timeR1)
                (rotX Real.cos Real.sin (3.14 / 6)))]) ∧
      (∀ matR1 cam matR2 matS matOT matT matR2' matS' matOT' matT' : Mat4 ℝ,
        (composeMatrices matR1 matR2 cam matS matOT matT).mat1
          = (composeMatrices matR1 matR2' cam matS' matOT' matT').mat1) ∧
      (∀ t1 t2 : ℝ,
        (frameLocals Real.cos Real.sin t1 t2).matS = scale 0.9 0.9 0.0 ∧
          (frameLocals Real.cos Real.sin t1 t2).matOT = translation 0.5 0.5 0.0 ∧
          (frameLocals Real.cos Real.sin t1 t2).mat3
            = matrisMultiplikation (scale 0.9 0.9 0.0) matT ∧
          (frameLocals Real.cos Real.sin t1 t2).mat3
            = (frameLocals Real.cos Real.sin t1 t2).matS) := by
  obtain ⟨calls, hmain, _, _, huploaded⟩ :=
    mainProgram_normal Real.cos Real.sin env hw hg hend
  refine ⟨⟨calls, hmain, huploaded⟩, ?_, ?_, ?_⟩
  · intro vertexArrayID locationTime fe
    exact (renderFrame_effects Real.cos Real.sin vertexArrayID locationTime fe).2.2
  · intros
    rfl
  · intro t1 t2
    exact ⟨rfl, rfl, rfl, matrisMultiplikation_matT _⟩

/-- C10, at the run `sampleEnv`. -/
theorem C10_uploaded_matrix_is_mat1_witness :
    ((sampleEnv : Env ℝ).windowOk = true ∧ (sampleEnv : Env ℝ).glewOk = true) ∧
      ∃ calls, mainProgram Real.cos Real.sin (sampleEnv : Env ℝ) = some (0, calls) ∧
        uploadedMatrices calls = (executedPasses false (sampleEnv : Env ℝ).frames).map fun fe =>
          (fe.locationT,
            matrisMultiplikation (rotY Real.cos Real.sin fe.timeR1)
              (rotX Real.cos Real.sin (3.14 / 6))) :=
  ⟨⟨rfl, rfl⟩,
    (C10_uploaded_matrix_is_mat1 sampleEnv rfl rfl
      ⟨_, List.mem_cons_of_mem _ (List.mem_cons_self _ _), Or.inr rfl⟩).1⟩

end GLprimer
